import Mathlib

/-
Verification of the flowsight core: the heuristic LSP feature scorer
(backend/app/services/ml_service.py, MLService._mock_predict) and the
backtesting simulator (backend/app/ml/backtesting.py, LSPBacktester).

Embedding conventions:
- Python floats are embedded as rationals (ℚ); every arithmetic step of the
  source is +, -, *, / on floats, which ℚ tracks exactly.  Lean's division is
  total (x / 0 = 0); no theorem below turns on a division-by-zero path except
  where the divisor is concrete and nonzero.
- pandas timestamps are embedded as integer day numbers: the source only
  compares them, joins on equality, and takes `(end - start).days`.
- Asset symbols are only compared for equality, so they are embedded as ℕ.
- The one float operation that leaves ℚ is `x ** (1 / years)` in the
  annualized return; `run_backtest` is therefore parametric in a power
  function `rpow : ℚ → ℚ → ℚ`.  No theorem below depends on the value of the
  power, only on how the code routes it.
- pandas `Series.std()` (ddof = 1) is NaN on a sample of size ≤ 1, and the
  source compares the result with `> 0`, which is False for NaN.  The standard
  deviation is embedded as a parameter `std : List ℚ → Option ℚ`, `none`
  standing for NaN; the source's `if downside_std > 0` becomes a match where
  `none` falls to the else branch, exactly as a NaN comparison does.
-/

/-! ## Feature scorer (ml_service.py) -/

/-- The six features `MLService._mock_predict` reads from its input dict.
A `none` field is a missing key; `features.get(k, default)` is `Option.getD`.
The source ignores every other key of the dict, so no other key is modelled. -/
structure FeatureVector where
  whale_net_flow_momentum : Option ℚ
  sopr : Option ℚ
  stablecoin_ratio : Option ℚ
  illiquid_supply_change : Option ℚ
  dex_liquidity_depth : Option ℚ
  price_volatility : Option ℚ
deriving DecidableEq

/-- `MLService._mock_predict` (ml_service.py lines 102-167), term by term in
the source's order, ending with the clamp `max(-10.0, min(10.0, score))`. -/
def mock_predict (features : FeatureVector) : ℚ :=
  let whale_net_flow_momentum := features.whale_net_flow_momentum.getD 0
  let sopr := features.sopr.getD 1
  let stablecoin_ratio := features.stablecoin_ratio.getD (1 / 2)
  let illiquid_supply_change := features.illiquid_supply_change.getD 0
  let dex_liquidity_depth := features.dex_liquidity_depth.getD 1000000
  let price_volatility := features.price_volatility.getD (1 / 50)
  let score : ℚ := 0
  let score := score - whale_net_flow_momentum * (5 / 2)
  let score :=
    if sopr > 11 / 10 then score + (sopr - 1) * 3
    else if sopr < 9 / 10 then score - (1 - sopr) * 2
    else score + (sopr - 1) * (3 / 2)
  let score := score - (stablecoin_ratio - 1 / 2) * (5 / 2)
  let score := score - illiquid_supply_change * (3 / 2)
  let normalized_depth := min (dex_liquidity_depth / 10000000) 1
  let score := score + (1 - normalized_depth) * (5 / 2)
  let score := score + price_volatility * 50
  max (-10) (min 10 score)

/-- The empty feature mapping: every key missing. -/
def emptyFeatures : FeatureVector := ⟨none, none, none, none, none, none⟩

/-- All keys missing except `sopr`, set to exactly 1.1. -/
def soprBoundaryFeatures : FeatureVector := ⟨none, some (11 / 10), none, none, none, none⟩

/-! ## Backtester data model (backtesting.py) -/

/-- A row of the `lsp_scores` DataFrame: columns timestamp, lsp_score, asset. -/
structure ScoreRow where
  timestamp : Int
  lsp_score : ℚ
  asset : Nat
deriving DecidableEq

/-- A row of the `price_data` DataFrame: columns timestamp, price, asset. -/
structure PriceRow where
  timestamp : Int
  price : ℚ
  asset : Nat
deriving DecidableEq

/-- A row of the inner-joined DataFrame `merged`. -/
structure MergedRow where
  timestamp : Int
  lsp_score : ℚ
  price : ℚ
  asset : Nat
deriving DecidableEq

/-- The direction string recorded in a trade: `'long'` or `'short'`. -/
inductive Side where
  | long
  | short
deriving DecidableEq

/-- One element of `self.trades` as `_close_position` appends it. -/
structure Trade where
  entry_price : ℚ
  exit_price : ℚ
  side : Side
  pnl : ℚ
  timestamp : Int
deriving DecidableEq

/-- The constructor configuration of `LSPBacktester.__init__`. -/
structure Config where
  trading_fee : ℚ
  slippage : ℚ
deriving DecidableEq

/-- The mutable fields of an `LSPBacktester` instance that survive a call:
`self.trades` and `self.equity_curve`. -/
structure BState where
  trades : List Trade
  equity_curve : List ℚ
deriving DecidableEq

/-- The local state of the simulation loop in `run_backtest`: `capital`,
`position` (0 none, 1 long, -1 short), `entry_price`, `entry_timestamp`,
plus the trades and equity curve being accumulated. -/
structure SimState where
  capital : ℚ
  position : Int
  entry_price : ℚ
  entry_timestamp : Option Int
  trades : List Trade
  equity : List ℚ
deriving DecidableEq

/-- The dictionary `_calculate_metrics` returns (`total_trades` is the one
integer-valued entry). -/
structure Metrics where
  total_return : ℚ
  annualized_return : ℚ
  max_drawdown : ℚ
  sortino_ratio : ℚ
  win_rate : ℚ
  avg_profit_per_trade : ℚ
  total_trades : Nat
  directional_accuracy : ℚ
deriving DecidableEq

/-! ## Join and sort (run_backtest preprocessing) -/

/-- `pd.merge(lsp_scores, price_data, on=['timestamp','asset'], how='inner')`:
every (score row, price row) pair agreeing on timestamp and asset, in
left-frame order. -/
def mergeRows : List ScoreRow → List PriceRow → List MergedRow
  | [], _ => []
  | s :: rest, price_data =>
      (price_data.filterMap fun p =>
        if s.timestamp = p.timestamp ∧ s.asset = p.asset then
          some ⟨s.timestamp, s.lsp_score, p.price, s.asset⟩
        else none) ++ mergeRows rest price_data

/-- Insert a row into a timestamp-sorted list, before the first row of
strictly greater or equal timestamp. -/
def insertByTs (r : MergedRow) : List MergedRow → List MergedRow
  | [] => [r]
  | x :: xs => if r.timestamp ≤ x.timestamp then r :: x :: xs else x :: insertByTs r xs

/-- `.sort_values('timestamp')`: sort by timestamp ascending.  (pandas does
not fix the order of equal timestamps; this embedding sorts stably, and no
theorem below depends on the order among equal timestamps.) -/
def sortByTs : List MergedRow → List MergedRow
  | [] => []
  | x :: xs => insertByTs x (sortByTs xs)

/-- The joined, sorted rows `run_backtest` iterates over. -/
def sortedMerged (lsp_scores : List ScoreRow) (price_data : List PriceRow) : List MergedRow :=
  sortByTs (mergeRows lsp_scores price_data)

/-! ## Simulation loop (run_backtest body, _close_position) -/

/-- `LSPBacktester._close_position` (lines 150-188): directional PnL on the
current capital, minus `capital * (slippage + trading_fee)`, together with the
trade record it appends. -/
def close_position (cfg : Config) (capital : ℚ) (position : Int)
    (entry_price exit_price : ℚ) (timestamp : Int) : ℚ × Trade :=
  let gross :=
    if position = 1 then capital * ((exit_price - entry_price) / entry_price)
    else capital * ((entry_price - exit_price) / entry_price)
  let pnl := gross - capital * (cfg.slippage + cfg.trading_fee)
  (pnl, ⟨entry_price, exit_price, if position = 1 then Side.long else Side.short, pnl, timestamp⟩)

/-- One iteration of the `for idx, row in merged.iterrows()` loop: the entry
branch at score ≥ 7, the elif branch at score ≤ -7, then the mark-to-market
append to the equity curve. -/
def step (cfg : Config) (st : SimState) (row : MergedRow) : SimState :=
  let st1 :=
    if 7 ≤ row.lsp_score ∧ st.position ≠ -1 then
      let closed :=
        if st.position = 1 then
          let ct := close_position cfg st.capital st.position st.entry_price row.price row.timestamp
          { st with capital := st.capital + ct.1, trades := st.trades ++ [ct.2] }
        else st
      { closed with
          position := -1,
          entry_price := row.price * (1 + cfg.slippage),
          entry_timestamp := some row.timestamp,
          capital := closed.capital * (1 - cfg.trading_fee) }
    else if row.lsp_score ≤ -7 ∧ st.position ≠ 1 then
      let closed :=
        if st.position = -1 then
          let ct := close_position cfg st.capital st.position st.entry_price row.price row.timestamp
          { st with capital := st.capital + ct.1, trades := st.trades ++ [ct.2] }
        else st
      { closed with
          position := 1,
          entry_price := row.price * (1 - cfg.slippage),
          entry_timestamp := some row.timestamp,
          capital := closed.capital * (1 - cfg.trading_fee) }
    else st
  let current_equity :=
    if st1.position ≠ 0 then
      if st1.position = 1 then
        st1.capital + st1.capital * ((row.price - st1.entry_price) / st1.entry_price)
      else
        st1.capital + st1.capital * ((st1.entry_price - row.price) / st1.entry_price)
    else st1.capital
  { st1 with equity := st1.equity ++ [current_equity] }

/-- The loop state as `run_backtest` initializes it: `capital = initial`,
`position = 0`, `entry_price = 0.0`, `entry_timestamp = None`,
`self.trades = []`, `self.equity_curve = [initial_capital]`. -/
def initState (initial_capital : ℚ) : SimState :=
  ⟨initial_capital, 0, 0, none, [], [initial_capital]⟩

/-- `self.equity_curve[-1] = capital`: overwrite the last entry in place. -/
def setLast (l : List ℚ) (x : ℚ) : List ℚ := l.dropLast ++ [x]

/-- `merged.iloc[-1]`: the last joined row (only read when `merged` is
non-empty). -/
def lastRowD (l : List MergedRow) : MergedRow := l.getLastD ⟨0, 0, 0, 0⟩

/-- The simulation of `run_backtest` after the empty check: fold the loop over
the sorted rows, then force-close any open position against the last row's
price and timestamp, overwriting the last equity entry with the resulting
capital. -/
def run_core (cfg : Config) (merged : List MergedRow) (initial_capital : ℚ) : SimState :=
  let stN := merged.foldl (step cfg) (initState initial_capital)
  if stN.position ≠ 0 then
    let lr := lastRowD merged
    let ct := close_position cfg stN.capital stN.position stN.entry_price lr.price lr.timestamp
    { stN with
        capital := stN.capital + ct.1,
        trades := stN.trades ++ [ct.2],
        equity := setLast stN.equity (stN.capital + ct.1) }
  else stN

/-! ## Metrics (_calculate_metrics) -/

/-- `pd.Series.pct_change().dropna()`: consecutive percentage changes. -/
def pctChange : List ℚ → List ℚ
  | [] => []
  | [_] => []
  | a :: b :: rest => (b - a) / a :: pctChange (b :: rest)

/-- Tail of `Series.expanding().max()` given the running maximum so far. -/
def runningMaxAux : ℚ → List ℚ → List ℚ
  | _, [] => []
  | m, x :: xs => max m x :: runningMaxAux (max m x) xs

/-- `Series.expanding().max()`: element i is the maximum of the first i+1. -/
def runningMax : List ℚ → List ℚ
  | [] => []
  | x :: xs => x :: runningMaxAux x xs

/-- `Series.min()` of a non-empty series (0 on an empty one, never the case
where the source reads it). -/
def listMin : List ℚ → ℚ
  | [] => 0
  | x :: xs => xs.foldl min x

/-- `data['timestamp'].min()`. -/
def tsMin : List MergedRow → Int
  | [] => 0
  | r :: rs => rs.foldl (fun a q => min a q.timestamp) r.timestamp

/-- `data['timestamp'].max()`. -/
def tsMax : List MergedRow → Int
  | [] => 0
  | r :: rs => rs.foldl (fun a q => max a q.timestamp) r.timestamp

/-- `returns[returns < 0]`: the strictly negative equity percentage changes. -/
def downsideOf (equity : List ℚ) : List ℚ :=
  (pctChange equity).filter (fun r => r < 0)

/-- `downside_returns.std() if len(downside_returns) > 0 else 0.0001`, with
`none` standing for a NaN standard deviation (pandas ddof=1 `std` is NaN on a
sample of size ≤ 1; the source calls it on any non-empty downside sample). -/
def downside_stdOf (std : List ℚ → Option ℚ) (equity : List ℚ) : Option ℚ :=
  if 0 < (downsideOf equity).length then std (downsideOf equity) else some (1 / 10000)

/-- `if downside_std > 0: annualized_return / downside_std else: 0.0`.  A NaN
(`none`) fails the float comparison `> 0`, so it lands in the else branch. -/
def sortinoOf (annualized_return : ℚ) (downside_std : Option ℚ) : ℚ :=
  match downside_std with
  | some v => if 0 < v then annualized_return / v else 0
  | none => 0

/-- `LSPBacktester._calculate_metrics` (lines 190-259).  `rpow` embeds the
float power in `(final/initial) ** (1/years)`; `std` embeds
`pd.Series.std()` on the downside sample (see `downside_stdOf`). -/
def calculate_metrics (rpow : ℚ → ℚ → ℚ) (std : List ℚ → Option ℚ)
    (initial_capital final_capital : ℚ) (data : List MergedRow)
    (trades : List Trade) (equity : List ℚ) : Metrics :=
  let total_return := (final_capital - initial_capital) / initial_capital
  let years : ℚ := ((tsMax data - tsMin data : Int) : ℚ) / (1461 / 4)
  let annualized_return := if 0 < years then rpow (final_capital / initial_capital) (1 / years) - 1 else 0
  let drawdowns := List.zipWith (fun e m => (e - m) / m) equity (runningMax equity)
  let max_drawdown := |listMin drawdowns|
  let sortino_ratio := sortinoOf annualized_return (downside_stdOf std equity)
  let win_rate :=
    if trades.length ≠ 0 then ((trades.filter fun t => 0 < t.pnl).length : ℚ) / (trades.length : ℚ)
    else 0
  let avg_profit :=
    if trades.length ≠ 0 then (trades.map (fun t => t.pnl)).sum / (trades.length : ℚ) else 0
  ⟨total_return, annualized_return, max_drawdown, sortino_ratio, win_rate, avg_profit,
    trades.length, 0⟩

/-- `LSPBacktester.run_backtest` (lines 48-148).  `self` carries the instance
fields `trades`/`equity_curve` into the call; the first component of the
result is the returned dictionary, `none` standing for the empty dict `{}`
returned when the join is empty (a populated metrics dict always has eight
keys, so emptiness distinguishes the two), and the second component the
instance fields after the call. -/
def run_backtest (rpow : ℚ → ℚ → ℚ) (std : List ℚ → Option ℚ) (cfg : Config)
    (lsp_scores : List ScoreRow) (price_data : List PriceRow)
    (initial_capital : ℚ) (self : BState) : Option Metrics × BState :=
  let merged := sortedMerged lsp_scores price_data
  if merged = [] then (none, self)
  else
    let fin := run_core cfg merged initial_capital
    (some (calculate_metrics rpow std initial_capital fin.capital merged fin.trades fin.equity),
      ⟨fin.trades, fin.equity⟩)

/-! ## Concrete stand-ins for the parametric float operations -/

/-- Stand-in for the float power `x ** y`, used to instantiate theorems at
concrete inputs.  Where the theorems below evaluate it (base ≠ 1, exponent
> 0), it agrees with the real power function on the side of 1 the result
falls: `x ** y > 1` iff `x > 1` and `x ** y < 1` iff `x < 1` for `y > 0`. -/
def rpowStub (a _b : ℚ) : ℚ :=
  if 1 < a then 11 / 10 else if a < 1 then 9 / 10 else 1

/-- Stand-in for pandas `Series.std()` (ddof = 1), used to instantiate
theorems at concrete inputs: NaN (`none`) on a sample of size ≤ 1 — exactly
pandas' behaviour there, and the only behaviour any theorem below evaluates. -/
def stdStub (xs : List ℚ) : Option ℚ :=
  if xs.length ≤ 1 then none else some 1

/-- The joined rows of a one-row run (score 8 at price 100, timestamp 0),
used to instantiate theorems at a concrete input. -/
def wMerged : List MergedRow := sortedMerged [⟨0, 8, 0⟩] [⟨0, 100, 0⟩]

/-- The final simulation state of that one-row run with zero fee and
slippage and initial capital 100000. -/
def wFin : SimState := run_core ⟨0, 0⟩ wMerged 100000

/-- The metrics that run reports. -/
def wMetrics : Metrics :=
  calculate_metrics rpowStub stdStub 100000 wFin.capital wMerged wFin.trades wFin.equity

/-! ## Helper lemmas -/

theorem step_equity_length (cfg : Config) (st : SimState) (row : MergedRow) :
    (step cfg st row).equity.length = st.equity.length + 1 := by
  simp only [step]
  split_ifs <;> simp

theorem foldl_step_equity_length (cfg : Config) (l : List MergedRow) :
    ∀ st : SimState, (l.foldl (step cfg) st).equity.length = st.equity.length + l.length := by
  induction l with
  | nil => intro st; simp
  | cons r t ih =>
      intro st
      simp only [List.foldl_cons, List.length_cons]
      rw [ih (step cfg st r), step_equity_length]
      omega

theorem setLast_length (l : List ℚ) (x : ℚ) (h : l ≠ []) :
    (setLast l x).length = l.length := by
  have hp : 0 < l.length := List.length_pos.mpr h
  simp only [setLast, List.length_append, List.length_dropLast, List.length_cons,
    List.length_nil]
  omega

theorem setLast_getLast (l : List ℚ) (x : ℚ) : (setLast l x).getLast? = some x := by
  simp [setLast]

theorem run_core_equity_length (cfg : Config) (merged : List MergedRow) (initial_capital : ℚ) :
    (run_core cfg merged initial_capital).equity.length = merged.length + 1 := by
  have hf := foldl_step_equity_length cfg merged (initState initial_capital)
  have h1 : (initState initial_capital).equity.length = 1 := rfl
  rw [h1] at hf
  simp only [run_core]
  split_ifs with hp
  · have hne : (merged.foldl (step cfg) (initState initial_capital)).equity ≠ [] := by
      intro hnil
      rw [hnil] at hf
      simp only [List.length_nil] at hf
      omega
    dsimp only
    rw [setLast_length _ _ hne, hf]
    omega
  · rw [hf]
    omega

/-! ## Claim theorems -/

/-- C5: For every feature mapping (any rational values for the six features,
any keys present or missing), the heuristic predictor's output lies in the
closed interval [-10, 10]: the final clamp bounds it on both sides. -/
theorem mock_predict_range (f : FeatureVector) :
    -10 ≤ mock_predict f ∧ mock_predict f ≤ 10 := by
  unfold mock_predict
  exact ⟨le_max_left _ _, max_le (by norm_num) (min_le_left _ _)⟩

/-- C5 witness at a concrete feature mapping. -/
theorem mock_predict_range_witness :
    -10 ≤ mock_predict emptyFeatures ∧ mock_predict emptyFeatures ≤ 10 :=
  mock_predict_range emptyFeatures

unseal Rat.mul Rat.add Rat.sub Rat.inv Rat.ofScientific in
/-- C4: On the empty feature mapping every feature takes its baseline
(momentum 0, sopr 1, stablecoin_ratio 1/2, illiquid_supply_change 0,
dex_liquidity_depth 1000000, price_volatility 1/50) and the heuristic
predictor returns exactly 3.25 = 13/4, composed of 0 from momentum, 0 from
the neutral SOPR branch, 0 from the stablecoin ratio, 0 from illiquid
supply, (1 - 1/10) * 5/2 = 9/4 from the depth term and (1/50) * 50 = 1 from
volatility. -/
theorem mock_predict_baseline :
    mock_predict emptyFeatures = 13 / 4 ∧
    ((0 : ℚ) * (5 / 2) = 0) ∧
    (¬ ((1 : ℚ) > 11 / 10) ∧ ¬ ((1 : ℚ) < 9 / 10) ∧ ((1 : ℚ) - 1) * (3 / 2) = 0) ∧
    (((1 : ℚ) / 2 - 1 / 2) * (5 / 2) = 0) ∧
    ((0 : ℚ) * (3 / 2) = 0) ∧
    (min ((1000000 : ℚ) / 10000000) 1 = 1 / 10 ∧ ((1 : ℚ) - 1 / 10) * (5 / 2) = 9 / 4) ∧
    (((1 : ℚ) / 50) * 50 = 1) ∧
    ((13 : ℚ) / 4 = 0 + 0 - 0 - 0 + 9 / 4 + 1) := by
  decide

unseal Rat.mul Rat.add Rat.sub Rat.inv Rat.ofScientific in
/-- C6: With sopr exactly 1.1 (= 11/10) and every other feature at its
baseline, the high branch's strict comparison `sopr > 1.1` fails, the
neutral branch contributes (11/10 - 1) * 3/2 = 0.15, and the score differs
from what the high branch (11/10 - 1) * 3 = 0.3 would have produced. -/
theorem sopr_boundary_neutral :
    ¬ ((11 : ℚ) / 10 > 11 / 10) ∧
    mock_predict soprBoundaryFeatures = 13 / 4 + (11 / 10 - 1) * (3 / 2) ∧
    ((11 : ℚ) / 10 - 1) * (3 / 2) = 3 / 20 ∧
    mock_predict soprBoundaryFeatures ≠ 13 / 4 + (11 / 10 - 1) * 3 := by
  decide

/-- C2: When the inner join of the score and price series is empty,
`run_backtest` returns the no-result outcome `none` (the source's empty dict
`{}`): no metrics object, in particular no zero-filled one. -/
theorem empty_join_no_result (rpow : ℚ → ℚ → ℚ) (std : List ℚ → Option ℚ) (cfg : Config)
    (lsp_scores : List ScoreRow) (price_data : List PriceRow) (initial_capital : ℚ)
    (self : BState) (h : sortedMerged lsp_scores price_data = []) :
    (run_backtest rpow std cfg lsp_scores price_data initial_capital self).1 = none := by
  simp [run_backtest, h]

/-- C2 witness: one score row and one price row that share an asset but not a
timestamp join to nothing, and the run returns `none`. -/
theorem empty_join_no_result_witness :
    (run_backtest rpowStub stdStub ⟨1 / 1000, 1 / 2000⟩ [⟨0, 5, 0⟩] [⟨1, 100, 0⟩] 100000
      ⟨[], []⟩).1 = none :=
  empty_join_no_result rpowStub stdStub ⟨1 / 1000, 1 / 2000⟩ [⟨0, 5, 0⟩] [⟨1, 100, 0⟩] 100000
    ⟨[], []⟩ (by decide)

/-- C10: When the join is empty, `run_backtest` returns before resetting the
instance fields, so `self.trades` and `self.equity_curve` keep whatever a
previous run left in them. -/
theorem empty_join_preserves_state (rpow : ℚ → ℚ → ℚ) (std : List ℚ → Option ℚ) (cfg : Config)
    (lsp_scores : List ScoreRow) (price_data : List PriceRow) (initial_capital : ℚ)
    (self : BState) (h : sortedMerged lsp_scores price_data = []) :
    (run_backtest rpow std cfg lsp_scores price_data initial_capital self).2 = self := by
  simp [run_backtest, h]

/-- C10 witness: after an empty-join run, a non-empty prior trade list and
equity curve are still there for the caller to read. -/
theorem empty_join_preserves_state_witness :
    (run_backtest rpowStub stdStub ⟨1 / 1000, 1 / 2000⟩ [⟨2, 9, 0⟩] [⟨3, 50, 1⟩] 100000
      ⟨[⟨100, 90, Side.short, 10000, 1⟩], [5, 6]⟩).2 =
      ⟨[⟨100, 90, Side.short, 10000, 1⟩], [5, 6]⟩ :=
  empty_join_preserves_state rpowStub stdStub ⟨1 / 1000, 1 / 2000⟩ [⟨2, 9, 0⟩] [⟨3, 50, 1⟩]
    100000 ⟨[⟨100, 90, Side.short, 10000, 1⟩], [5, 6]⟩ (by decide)

/-- C9: Running the simulator twice in succession on the same backtester
instance with identical inputs gives identical results: the second run,
started from the instance state the first run left, returns the same metrics
and leaves the same trade list and equity curve. -/
theorem run_backtest_rerun (rpow : ℚ → ℚ → ℚ) (std : List ℚ → Option ℚ) (cfg : Config)
    (lsp_scores : List ScoreRow) (price_data : List PriceRow) (initial_capital : ℚ)
    (self : BState) :
    run_backtest rpow std cfg lsp_scores price_data initial_capital
        (run_backtest rpow std cfg lsp_scores price_data initial_capital self).2 =
      run_backtest rpow std cfg lsp_scores price_data initial_capital self := by
  by_cases h : sortedMerged lsp_scores price_data = [] <;> simp [run_backtest, h]

unseal Rat.mul Rat.add Rat.sub Rat.inv in
/-- C7: On scores [8, -8] at prices [100, 90] with zero fee and slippage and
initial capital 100000, the run records the short opened at 100 and closed at
90 for a 10000 PnL, then the long opened and force-closed at 90 for 0 PnL:
exactly 2 trades, final capital 110000, total return 1/10. -/
theorem backtest_two_trade_scenario (rpow : ℚ → ℚ → ℚ) (std : List ℚ → Option ℚ) :
    (run_backtest rpow std ⟨0, 0⟩ [⟨0, 8, 0⟩, ⟨1, -8, 0⟩] [⟨0, 100, 0⟩, ⟨1, 90, 0⟩] 100000
        ⟨[], []⟩).2.trades =
      [⟨100, 90, Side.short, 10000, 1⟩, ⟨90, 90, Side.long, 0, 1⟩] ∧
    ((run_backtest rpow std ⟨0, 0⟩ [⟨0, 8, 0⟩, ⟨1, -8, 0⟩] [⟨0, 100, 0⟩, ⟨1, 90, 0⟩] 100000
        ⟨[], []⟩).1.map Metrics.total_trades) = some 2 ∧
    ((run_backtest rpow std ⟨0, 0⟩ [⟨0, 8, 0⟩, ⟨1, -8, 0⟩] [⟨0, 100, 0⟩, ⟨1, 90, 0⟩] 100000
        ⟨[], []⟩).1.map Metrics.total_return) = some (1 / 10) ∧
    (run_core ⟨0, 0⟩ (sortedMerged [⟨0, 8, 0⟩, ⟨1, -8, 0⟩] [⟨0, 100, 0⟩, ⟨1, 90, 0⟩])
        100000).capital = 110000 := by
  exact ⟨rfl, rfl, rfl, rfl⟩

/-- C8: For every non-empty joined dataset the equity curve has exactly
`merged.length + 1` entries (the seed plus one per row); and when a position
is still open after the last row, the force-close overwrites the final entry
in place with the resulting capital (same length as before the close, last
entry equal to the final capital). -/
theorem equity_curve_shape (rpow : ℚ → ℚ → ℚ) (std : List ℚ → Option ℚ) (cfg : Config)
    (lsp_scores : List ScoreRow) (price_data : List PriceRow) (initial_capital : ℚ)
    (self : BState) (h : sortedMerged lsp_scores price_data ≠ []) :
    (run_backtest rpow std cfg lsp_scores price_data initial_capital self).2.equity_curve.length =
      (sortedMerged lsp_scores price_data).length + 1 ∧
    (((sortedMerged lsp_scores price_data).foldl (step cfg) (initState initial_capital)).position ≠ 0 →
      (run_backtest rpow std cfg lsp_scores price_data initial_capital self).2.equity_curve.getLast? =
        some (run_core cfg (sortedMerged lsp_scores price_data) initial_capital).capital ∧
      (run_backtest rpow std cfg lsp_scores price_data initial_capital self).2.equity_curve.length =
        ((sortedMerged lsp_scores price_data).foldl (step cfg)
          (initState initial_capital)).equity.length) := by
  have hrun : (run_backtest rpow std cfg lsp_scores price_data initial_capital self).2.equity_curve =
      (run_core cfg (sortedMerged lsp_scores price_data) initial_capital).equity := by
    simp [run_backtest, h]
  refine ⟨?_, fun hp => ⟨?_, ?_⟩⟩
  · rw [hrun]
    exact run_core_equity_length _ _ _
  · rw [hrun]
    simp only [run_core]
    rw [if_pos hp]
    exact setLast_getLast _ _
  · rw [hrun, run_core_equity_length, foldl_step_equity_length]
    have h1 : (initState initial_capital).equity.length = 1 := rfl
    rw [h1]
    omega

/-- C8 witness: a single high-score row leaves a short open, so the
force-close path is exercised. -/
theorem equity_curve_shape_witness :
    (run_backtest rpowStub stdStub ⟨1 / 1000, 1 / 2000⟩ [⟨0, 8, 0⟩] [⟨0, 100, 0⟩] 100000
        ⟨[], []⟩).2.equity_curve.length = (sortedMerged [⟨0, 8, 0⟩] [⟨0, 100, 0⟩]).length + 1 ∧
    (((sortedMerged [⟨0, 8, 0⟩] [⟨0, 100, 0⟩]).foldl (step ⟨1 / 1000, 1 / 2000⟩)
        (initState 100000)).position ≠ 0 →
      (run_backtest rpowStub stdStub ⟨1 / 1000, 1 / 2000⟩ [⟨0, 8, 0⟩] [⟨0, 100, 0⟩] 100000
          ⟨[], []⟩).2.equity_curve.getLast? =
        some (run_core ⟨1 / 1000, 1 / 2000⟩ (sortedMerged [⟨0, 8, 0⟩] [⟨0, 100, 0⟩])
          100000).capital ∧
      (run_backtest rpowStub stdStub ⟨1 / 1000, 1 / 2000⟩ [⟨0, 8, 0⟩] [⟨0, 100, 0⟩] 100000
          ⟨[], []⟩).2.equity_curve.length =
        ((sortedMerged [⟨0, 8, 0⟩] [⟨0, 100, 0⟩]).foldl (step ⟨1 / 1000, 1 / 2000⟩)
          (initState 100000)).equity.length) :=
  equity_curve_shape rpowStub stdStub ⟨1 / 1000, 1 / 2000⟩ [⟨0, 8, 0⟩] [⟨0, 100, 0⟩] 100000
    ⟨[], []⟩ (by decide)

/-- C1 (amended): the backtester validates nothing: a configuration with
negative trading fee, negative slippage or negative initial capital is not
rejected — on a non-empty join the simulation executes (full equity curve)
and a metrics report is returned. -/
theorem no_config_validation (rpow : ℚ → ℚ → ℚ) (std : List ℚ → Option ℚ) (cfg : Config)
    (lsp_scores : List ScoreRow) (price_data : List PriceRow) (initial_capital : ℚ)
    (self : BState)
    (_hbad : cfg.trading_fee < 0 ∨ cfg.slippage < 0 ∨ initial_capital < 0)
    (h : sortedMerged lsp_scores price_data ≠ []) :
    (run_backtest rpow std cfg lsp_scores price_data initial_capital self).1.isSome = true ∧
    (run_backtest rpow std cfg lsp_scores price_data initial_capital self).2.equity_curve.length =
      (sortedMerged lsp_scores price_data).length + 1 := by
  constructor
  · simp [run_backtest, h]
  · have hrun : (run_backtest rpow std cfg lsp_scores price_data initial_capital
        self).2.equity_curve =
        (run_core cfg (sortedMerged lsp_scores price_data) initial_capital).equity := by
      simp [run_backtest, h]
    rw [hrun]
    exact run_core_equity_length _ _ _

unseal Rat.mul Rat.add Rat.sub Rat.inv in
/-- C1 witness: all three configuration fields invalid; the run still
executes and returns metrics. -/
theorem no_config_validation_witness :
    (run_backtest rpowStub stdStub ⟨-(1 / 1000), -(1 / 2000)⟩ [⟨0, 2, 0⟩] [⟨0, 100, 0⟩] (-100)
        ⟨[], []⟩).1.isSome = true ∧
    (run_backtest rpowStub stdStub ⟨-(1 / 1000), -(1 / 2000)⟩ [⟨0, 2, 0⟩] [⟨0, 100, 0⟩] (-100)
        ⟨[], []⟩).2.equity_curve.length =
      (sortedMerged [⟨0, 2, 0⟩] [⟨0, 100, 0⟩]).length + 1 :=
  no_config_validation rpowStub stdStub ⟨-(1 / 1000), -(1 / 2000)⟩ [⟨0, 2, 0⟩] [⟨0, 100, 0⟩]
    (-100) ⟨[], []⟩ (Or.inl (by decide)) (by decide)

unseal Rat.mul Rat.add Rat.sub Rat.inv in
/-- C1 counterexample: with trading_fee = -0.001, slippage = -0.0005 and
initial capital -100 (all outside the claimed-valid ranges) and a non-empty
join, the run is not rejected: a metrics report is returned and equity-curve
entries are produced, contradicting the claimed InvalidConfiguration
rejection before simulation. -/
theorem invalid_config_not_rejected_cex :
    (run_backtest rpowStub stdStub ⟨-(1 / 1000), -(1 / 2000)⟩ [⟨0, 0, 0⟩] [⟨0, 100, 0⟩] (-100)
        ⟨[], []⟩).1.isSome = true ∧
    (run_backtest rpowStub stdStub ⟨-(1 / 1000), -(1 / 2000)⟩ [⟨0, 0, 0⟩] [⟨0, 100, 0⟩] (-100)
        ⟨[], []⟩).2.equity_curve = [-100, -100] ∧
    ((⟨-(1 / 1000), -(1 / 2000)⟩ : Config).trading_fee < 0 ∧
      (⟨-(1 / 1000), -(1 / 2000)⟩ : Config).slippage < 0 ∧ (-100 : ℚ) ≤ 0) := by
  decide

/-- C3 (amended): for a non-empty joined dataset the reported sortino_ratio
follows the source's branch structure: the quotient
annualized_return / downside_std when the downside sample is empty (then
downside_std = 0.0001) or when its standard deviation is a positive number;
but 0.0 when the standard deviation is NaN (as pandas yields on a
single-element downside sample) or not positive. -/
theorem sortino_branches (rpow : ℚ → ℚ → ℚ) (std : List ℚ → Option ℚ) (cfg : Config)
    (lsp_scores : List ScoreRow) (price_data : List PriceRow) (initial_capital : ℚ)
    (self : BState) (m : Metrics)
    (h : sortedMerged lsp_scores price_data ≠ [])
    (hm : (run_backtest rpow std cfg lsp_scores price_data initial_capital self).1 = some m) :
    m.sortino_ratio =
      sortinoOf m.annualized_return
        (downside_stdOf std
          (run_core cfg (sortedMerged lsp_scores price_data) initial_capital).equity) ∧
    (downsideOf (run_core cfg (sortedMerged lsp_scores price_data) initial_capital).equity = [] →
      m.sortino_ratio = m.annualized_return / (1 / 10000)) ∧
    (∀ v, downside_stdOf std
        (run_core cfg (sortedMerged lsp_scores price_data) initial_capital).equity = some v →
      0 < v → m.sortino_ratio = m.annualized_return / v) ∧
    (downside_stdOf std
        (run_core cfg (sortedMerged lsp_scores price_data) initial_capital).equity = none →
      m.sortino_ratio = 0) ∧
    (∀ v, downside_stdOf std
        (run_core cfg (sortedMerged lsp_scores price_data) initial_capital).equity = some v →
      v ≤ 0 → m.sortino_ratio = 0) := by
  have hrun : (run_backtest rpow std cfg lsp_scores price_data initial_capital self).1 =
      some (calculate_metrics rpow std initial_capital
        (run_core cfg (sortedMerged lsp_scores price_data) initial_capital).capital
        (sortedMerged lsp_scores price_data)
        (run_core cfg (sortedMerged lsp_scores price_data) initial_capital).trades
        (run_core cfg (sortedMerged lsp_scores price_data) initial_capital).equity) := by
    simp [run_backtest, h]
  rw [hrun] at hm
  have hmm := Option.some.inj hm
  subst hmm
  have hs : (calculate_metrics rpow std initial_capital
      (run_core cfg (sortedMerged lsp_scores price_data) initial_capital).capital
      (sortedMerged lsp_scores price_data)
      (run_core cfg (sortedMerged lsp_scores price_data) initial_capital).trades
      (run_core cfg (sortedMerged lsp_scores price_data) initial_capital).equity).sortino_ratio =
      sortinoOf (calculate_metrics rpow std initial_capital
        (run_core cfg (sortedMerged lsp_scores price_data) initial_capital).capital
        (sortedMerged lsp_scores price_data)
        (run_core cfg (sortedMerged lsp_scores price_data) initial_capital).trades
        (run_core cfg (sortedMerged lsp_scores price_data) initial_capital).equity).annualized_return
        (downside_stdOf std
          (run_core cfg (sortedMerged lsp_scores price_data) initial_capital).equity) := rfl
  refine ⟨hs, ?_, ?_, ?_, ?_⟩
  · intro hd
    rw [hs]
    simp only [downside_stdOf, hd, List.length_nil, lt_irrefl, if_false, sortinoOf]
    norm_num
  · intro v hv hpos
    rw [hs, hv]
    simp [sortinoOf, hpos]
  · intro hn
    rw [hs, hn]
    rfl
  · intro v hv hle
    rw [hs, hv]
    simp [sortinoOf, not_lt.mpr hle]

unseal Rat.mul Rat.add Rat.sub Rat.inv in
/-- C3 witness: the branch structure instantiated on a concrete one-row run
(empty downside sample, so the 0.0001 branch applies). -/
theorem sortino_branches_witness :
    wMetrics.sortino_ratio =
      sortinoOf wMetrics.annualized_return (downside_stdOf stdStub wFin.equity) ∧
    (downsideOf wFin.equity = [] →
      wMetrics.sortino_ratio = wMetrics.annualized_return / (1 / 10000)) ∧
    (∀ v, downside_stdOf stdStub wFin.equity = some v → 0 < v →
      wMetrics.sortino_ratio = wMetrics.annualized_return / v) ∧
    (downside_stdOf stdStub wFin.equity = none → wMetrics.sortino_ratio = 0) ∧
    (∀ v, downside_stdOf stdStub wFin.equity = some v → v ≤ 0 →
      wMetrics.sortino_ratio = 0) :=
  sortino_branches rpowStub stdStub ⟨0, 0⟩ [⟨0, 8, 0⟩] [⟨0, 100, 0⟩] 100000 ⟨[], []⟩ wMetrics
    (by decide) rfl

unseal Rat.mul Rat.add Rat.sub Rat.inv in
/-- C3 counterexample: scores [8, 0] at prices [100, 110], 365 days apart,
zero fee and slippage, capital 100000.  The equity curve is
[100000, 100000, 90000], so the downside sample is the single change -1/10:
its sample standard deviation (ddof = 1) is NaN, the reported sortino_ratio
is 0, yet the annualized return is nonzero (the stand-in power function,
like the real one, sends a base below 1 with a positive exponent below 1),
so no division of the annualized return by a nonzero downside deviation can
equal the reported value. -/
theorem sortino_single_downside_cex :
    downsideOf (run_backtest rpowStub stdStub ⟨0, 0⟩ [⟨0, 8, 0⟩, ⟨365, 0, 0⟩]
        [⟨0, 100, 0⟩, ⟨365, 110, 0⟩] 100000 ⟨[], []⟩).2.equity_curve = [-(1 / 10)] ∧
    stdStub [-(1 / 10)] = none ∧
    ((run_backtest rpowStub stdStub ⟨0, 0⟩ [⟨0, 8, 0⟩, ⟨365, 0, 0⟩] [⟨0, 100, 0⟩, ⟨365, 110, 0⟩]
        100000 ⟨[], []⟩).1.map Metrics.sortino_ratio) = some 0 ∧
    ((run_backtest rpowStub stdStub ⟨0, 0⟩ [⟨0, 8, 0⟩, ⟨365, 0, 0⟩] [⟨0, 100, 0⟩, ⟨365, 110, 0⟩]
        100000 ⟨[], []⟩).1.map Metrics.annualized_return) = some (-(1 / 10)) ∧
    (∀ d : ℚ, d ≠ 0 → -(1 / 10) / d ≠ 0) := by
  refine ⟨by decide, by decide, by decide, by decide, fun d hd => div_ne_zero (by norm_num) hd⟩
